import Mathlib

/-!
Verification of the Jet Stream Clean quote application pricing engine.

The pricing logic lives in the `summary` useMemo hook of `src/src/App.js`
(lines 183-331), driven by the `RATES` constant (lines 30-104).  This file
embeds that engine shallowly: prices are exact rationals, quantities are
natural numbers, the JavaScript `Math.round` is modelled as
floor (x + 1/2) (round half toward positive infinity, which agrees with
the floating-point computation on every base price in the rate table),
and the line array built by successive `lines.push` calls together with
the running `sub` accumulator is modelled as a pair passed through the
category sections in source order.
-/

namespace JetStream

/-- Package tiers: the keys `standard`, `reset`, `deluxe` of each carpet
area object and of each rug size row, in `Object.keys` insertion order. -/
inductive Tier where
  | standard
  | reset
  | deluxe
  deriving DecidableEq, Repr

/-- The three tier keys in the insertion order the engine traverses. -/
def tierKeys : List Tier := [Tier.standard, Tier.reset, Tier.deluxe]

/-- The five carpet area types of `RATES.carpets`, in source order. -/
inductive CarpetArea where
  | rooms
  | stairs
  | downHall
  | upLanding
  | walkIn
  deriving DecidableEq, Repr

/-- The 13 upholstery item keys of the `uphKeys` array (App.js line 142);
the sectional is handled separately by the engine. -/
inductive UphKey where
  | ottoman
  | accentChair
  | diningChair
  | recliner
  | oversizedChair
  | throwPillow
  | loveseat
  | couch3
  | couch4
  | mattressTwin
  | mattressFull
  | mattressQueen
  | mattressKing
  deriving DecidableEq, Repr

/-- The `uphKeys` array in source order. -/
def uphKeyList : List UphKey :=
  [UphKey.ottoman, UphKey.accentChair, UphKey.diningChair, UphKey.recliner,
   UphKey.oversizedChair, UphKey.throwPillow, UphKey.loveseat, UphKey.couch3,
   UphKey.couch4, UphKey.mattressTwin, UphKey.mattressFull,
   UphKey.mattressQueen, UphKey.mattressKing]

/-- The seven rug size keys of the `rugSizes` array (App.js line 158). -/
inductive RugSize where
  | small
  | medium
  | large
  | xlarge
  | xxlarge
  | huge
  | massive
  deriving DecidableEq, Repr

/-- The `rugSizes` array in source order. -/
def rugSizeList : List RugSize :=
  [RugSize.small, RugSize.medium, RugSize.large, RugSize.xlarge,
   RugSize.xxlarge, RugSize.huge, RugSize.massive]

/-- Service zones (`RATES.serviceZones`). -/
inductive Zone where
  | local
  | extended
  deriving DecidableEq, Repr

/-- Quantities per package tier, as held in a React state object such as
`carpetRooms = { standard: 0, reset: 0, deluxe: 0 }`. -/
structure TierQty where
  standard : Nat
  reset : Nat
  deluxe : Nat
  deriving DecidableEq, Repr

/-- Field lookup `obj[k]` on a tier-quantity object. -/
def TierQty.get : TierQty → Tier → Nat
  | q, Tier.standard => q.standard
  | q, Tier.reset => q.reset
  | q, Tier.deluxe => q.deluxe

/-- The all-zero tier-quantity object. -/
def TierQty.zero : TierQty := ⟨0, 0, 0⟩

/-! ## The rate table (`RATES`, App.js lines 30-104) -/

/-- `RATES.minCharge`. -/
def minCharge : ℚ := 135

/-- `RATES.serviceZones.extended.fee`; the local zone has fee 0. -/
def extendedFee : ℚ := 45

/-- `RATES.carpets[area][tier].price`. -/
def carpetPrice : CarpetArea → Tier → ℚ
  | CarpetArea.rooms, Tier.standard => 45
  | CarpetArea.rooms, Tier.reset => 90
  | CarpetArea.rooms, Tier.deluxe => 135
  | CarpetArea.stairs, Tier.standard => 65
  | CarpetArea.stairs, Tier.reset => 130
  | CarpetArea.stairs, Tier.deluxe => 170
  | CarpetArea.downHall, Tier.standard => 20
  | CarpetArea.downHall, Tier.reset => 40
  | CarpetArea.downHall, Tier.deluxe => 60
  | CarpetArea.upLanding, Tier.standard => 65
  | CarpetArea.upLanding, Tier.reset => 130
  | CarpetArea.upLanding, Tier.deluxe => 175
  | CarpetArea.walkIn, Tier.standard => 20
  | CarpetArea.walkIn, Tier.reset => 40
  | CarpetArea.walkIn, Tier.deluxe => 60

/-- `RATES.carpets[area][tier].label`. -/
def carpetLabel : CarpetArea → Tier → String
  | CarpetArea.rooms, Tier.standard => "Standard Steam Clean"
  | CarpetArea.rooms, Tier.reset => "Factory Reset Clean"
  | CarpetArea.rooms, Tier.deluxe => "Factory Reset Deluxe"
  | CarpetArea.stairs, Tier.standard => "Standard Steam Clean (Stairs)"
  | CarpetArea.stairs, Tier.reset => "Factory Reset Clean (Stairs)"
  | CarpetArea.stairs, Tier.deluxe => "Factory Reset Deluxe (Stairs)"
  | CarpetArea.downHall, Tier.standard => "Standard Steam Clean (Downstairs Hallway)"
  | CarpetArea.downHall, Tier.reset => "Factory Reset Clean (Downstairs Hallway)"
  | CarpetArea.downHall, Tier.deluxe => "Factory Reset Deluxe (Downstairs Hallway)"
  | CarpetArea.upLanding, Tier.standard => "Standard Steam Clean (Upstairs Landing)"
  | CarpetArea.upLanding, Tier.reset => "Factory Reset Clean (Upstairs Landing)"
  | CarpetArea.upLanding, Tier.deluxe => "Factory Reset Deluxe (Upstairs Landing)"
  | CarpetArea.walkIn, Tier.standard => "Standard Steam Clean (Walk-In Closet)"
  | CarpetArea.walkIn, Tier.reset => "Factory Reset Clean (Walk-In Closet)"
  | CarpetArea.walkIn, Tier.deluxe => "Factory Reset Deluxe (Walk-In Closet)"

/-- `RATES.tile.rate`. -/
def tileRate : ℚ := 1 / 2

/-- `RATES.upholstery[k].price` for the 13 non-sectional keys. -/
def uphPrice : UphKey → ℚ
  | UphKey.ottoman => 40
  | UphKey.accentChair => 40
  | UphKey.diningChair => 25
  | UphKey.recliner => 65
  | UphKey.oversizedChair => 65
  | UphKey.throwPillow => 5
  | UphKey.loveseat => 85
  | UphKey.couch3 => 100
  | UphKey.couch4 => 140
  | UphKey.mattressTwin => 50
  | UphKey.mattressFull => 65
  | UphKey.mattressQueen => 80
  | UphKey.mattressKing => 95

/-- `RATES.upholstery[k].label` for the 13 non-sectional keys. -/
def uphLabel : UphKey → String
  | UphKey.ottoman => "Ottoman"
  | UphKey.accentChair => "Accent Chair"
  | UphKey.diningChair => "Dining Chair"
  | UphKey.recliner => "Recliner Chair"
  | UphKey.oversizedChair => "Oversized Double Chair"
  | UphKey.throwPillow => "Throw Pillow"
  | UphKey.loveseat => "Loveseat"
  | UphKey.couch3 => "Couch (3 Cushions)"
  | UphKey.couch4 => "Couch (4 Cushions)"
  | UphKey.mattressTwin => "Twin Mattress"
  | UphKey.mattressFull => "Full Mattress"
  | UphKey.mattressQueen => "Queen Mattress"
  | UphKey.mattressKing => "King Mattress"

/-- `RATES.sectionalPrices`: a table keyed by cushion count 4-12; a lookup
of any other key is `undefined` in the source. -/
def sectionalPrices : Nat → Option ℚ
  | 4 => some 140
  | 5 => some 195
  | 6 => some 235
  | 7 => some 275
  | 8 => some 315
  | 9 => some 355
  | 10 => some 395
  | 11 => some 435
  | 12 => some 485
  | _ => none

/-- `RATES.upholsteryAddOns.deodorizerCap`. -/
def deodorizerCap : ℚ := 20

/-- `RATES.upholsteryAddOns.fabricProtectorCap`. -/
def fabricProtectorCap : ℚ := 50

/-- `RATES.upholsteryAddOns.deodorizerPct`. -/
def deodorizerPct : ℚ := 15 / 100

/-- `RATES.upholsteryAddOns.fabricProtectorPct`. -/
def fabricProtectorPct : ℚ := 20 / 100

/-- `RATES.rugs[size][pkg]`. -/
def rugPrice : RugSize → Tier → ℚ
  | RugSize.small, Tier.standard => 50
  | RugSize.small, Tier.reset => 75
  | RugSize.small, Tier.deluxe => 100
  | RugSize.medium, Tier.standard => 60
  | RugSize.medium, Tier.reset => 90
  | RugSize.medium, Tier.deluxe => 120
  | RugSize.large, Tier.standard => 75
  | RugSize.large, Tier.reset => 112
  | RugSize.large, Tier.deluxe => 150
  | RugSize.xlarge, Tier.standard => 90
  | RugSize.xlarge, Tier.reset => 135
  | RugSize.xlarge, Tier.deluxe => 180
  | RugSize.xxlarge, Tier.standard => 110
  | RugSize.xxlarge, Tier.reset => 165
  | RugSize.xxlarge, Tier.deluxe => 220
  | RugSize.huge, Tier.standard => 162
  | RugSize.huge, Tier.reset => 243
  | RugSize.huge, Tier.deluxe => 324
  | RugSize.massive, Tier.standard => 300
  | RugSize.massive, Tier.reset => 450
  | RugSize.massive, Tier.deluxe => 600

/-- `RATES.rugs[size].label`. -/
def rugSizeLabel : RugSize → String
  | RugSize.small => "Below 5x8"
  | RugSize.medium => "5x8 to 6x9"
  | RugSize.large => "6x9 to 8x10"
  | RugSize.xlarge => "8x10 to 9x12"
  | RugSize.xxlarge => "9x12 to 10x14"
  | RugSize.huge => "10x14 to 12x18"
  | RugSize.massive => "12x18 to 20x20"

/-- The package name spliced into a rug line label (App.js line 290). -/
def rugPkgName : Tier → String
  | Tier.standard => "Standard Steam Clean"
  | Tier.reset => "Factory Reset Clean"
  | Tier.deluxe => "Factory Reset Deluxe"

/-- `RATES.pest.monthly.price`. -/
def pestMonthlyPrice : ℚ := 4999 / 100

/-- `RATES.pest.oneTime.price`. -/
def pestOneTimePrice : ℚ := 12999 / 100

/-- `RATES.pest.flea1600`. -/
def flea1600 : ℚ := 149

/-- `RATES.pest.flea3200`. -/
def flea3200 : ℚ := 300

/-- JavaScript `Math.round`: round half toward positive infinity.  On the
rate-table base prices times the add-on percentages the double-precision
products round to the same value as the exact rationals, so this models
the source computation exactly on all reachable inputs. -/
def jsRound (x : ℚ) : ℤ := Int.floor (x + 1 / 2)

/-! ## Selection and quote data model -/

/-- The selection state read by the pricing useMemo hook: zone, the five
carpet tier-quantity objects, tile square footage, upholstery quantities
and add-on flags, sectional settings, rug quantities and pest options. -/
structure Selection where
  zone : Zone
  carpetRooms : TierQty
  carpetStairs : TierQty
  downHall : TierQty
  upLanding : TierQty
  walkIn : TierQty
  tileTotalSqft : ℚ
  uphQty : UphKey → Nat
  uphDeo : UphKey → Bool
  uphProt : UphKey → Bool
  sectionalCushions : Nat
  sectionalQty : Nat
  sectionalDeo : Bool
  sectionalProt : Bool
  rugPackages : RugSize → TierQty
  pestMonthly : Bool
  pestOneTime : Bool
  pestHomeSqft : ℚ

/-- The carpet tier-quantity object of a given area type. -/
def Selection.carpetOf : Selection → CarpetArea → TierQty
  | s, CarpetArea.rooms => s.carpetRooms
  | s, CarpetArea.stairs => s.carpetStairs
  | s, CarpetArea.downHall => s.downHall
  | s, CarpetArea.upLanding => s.upLanding
  | s, CarpetArea.walkIn => s.walkIn

/-- One element of the `lines` array: `{label, qty, each, total}`. -/
structure LineItem where
  label : String
  qty : ℚ
  each : ℚ
  total : ℚ
  deriving DecidableEq, Repr

/-- The object returned by the useMemo hook:
`{ lines, subtotal: sub, total: sub }`. -/
structure QuoteSummary where
  lines : List LineItem
  subtotal : ℚ
  total : ℚ
  deriving DecidableEq, Repr

/-! ## The pricing engine (App.js lines 183-331)

The hook builds a `lines` array by successive pushes and keeps a running
accumulator `sub`; every push of a line with total `t` is accompanied by
`sub = sub + t`.  We model the pair `(lines, sub)` threaded through the
category sections in source order. -/

/-- Accumulator state: the `lines` array so far and the running `sub`. -/
abbrev Acc := List LineItem × ℚ

/-- `lines.push({label, qty, each, total})` together with
`sub = sub + total`. -/
def push (acc : Acc) (label : String) (qty each total : ℚ) : Acc :=
  (acc.1 ++ [⟨label, qty, each, total⟩], acc.2 + total)

/-- One carpet block (App.js lines 187-230): iterate the three tier keys
of the given area, skip zero quantities, price each at `qty * each`. -/
def carpetAcc (area : CarpetArea) (q : TierQty) (acc : Acc) : Acc :=
  tierKeys.foldl
    (fun a k =>
      let qty := q.get k
      if qty = 0 then a
      else push a (carpetLabel area k) qty (carpetPrice area k)
        ((qty : ℚ) * carpetPrice area k))
    acc

/-- Tile section (App.js lines 231-237): clamp the entered square footage
to at least 0 and emit one line at the per-sqft rate when positive. -/
def tileAcc (sqft : ℚ) (acc : Acc) : Acc :=
  let t := max 0 sqft
  if 0 < t then push acc "Tile and Grout Cleaning" t tileRate (t * tileRate)
  else acc

/-- Sectional section (App.js lines 243-261): when quantity is positive,
look up the base price by cushion count (`|| 0` on a missing key), emit the
base line, then the optional deodorizer and fabric-protector add-on lines
with capped rounded percentage unit prices. -/
def sectionalAcc (cushions qty : Nat) (deo prot : Bool) (acc : Acc) : Acc :=
  if qty = 0 then acc
  else
    let base := (sectionalPrices cushions).getD 0
    let a1 := push acc ("Sectional - " ++ toString cushions ++ " cushions")
      (qty : ℚ) base (base * (qty : ℚ))
    let a2 :=
      if deo then
        let deoEach : ℚ := min deodorizerCap ((jsRound (base * deodorizerPct) : ℤ) : ℚ)
        push a1 "Sectional - Deodorizer" (qty : ℚ) deoEach (deoEach * (qty : ℚ))
      else a1
    if prot then
      let fabricEach : ℚ := min fabricProtectorCap ((jsRound (base * fabricProtectorPct) : ℤ) : ℚ)
      push a2 "Sectional - Fabric Protector" (qty : ℚ) fabricEach (fabricEach * (qty : ℚ))
    else a2

/-- One non-sectional upholstery item (App.js lines 263-282): base line
when the quantity is positive, then optional add-on lines. -/
def uphItemAcc (k : UphKey) (qty : Nat) (deo prot : Bool) (acc : Acc) : Acc :=
  let base := uphPrice k
  if qty = 0 then acc
  else
    let a1 := push acc (uphLabel k) (qty : ℚ) base (base * (qty : ℚ))
    let a2 :=
      if deo then
        let deoEach : ℚ := min deodorizerCap ((jsRound (base * deodorizerPct) : ℤ) : ℚ)
        push a1 (uphLabel k ++ " - Deodorizer") (qty : ℚ) deoEach (deoEach * (qty : ℚ))
      else a1
    if prot then
      let fabricEach : ℚ := min fabricProtectorCap ((jsRound (base * fabricProtectorPct) : ℤ) : ℚ)
      push a2 (uphLabel k ++ " - Fabric Protector") (qty : ℚ) fabricEach (fabricEach * (qty : ℚ))
    else a2

/-- The `uphKeys.forEach` loop. -/
def uphAcc (qtys : UphKey → Nat) (deo prot : UphKey → Bool) (acc : Acc) : Acc :=
  uphKeyList.foldl (fun a k => uphItemAcc k (qtys k) (deo k) (prot k) a) acc

/-- Rug section (App.js lines 283-293): for each size and package with a
positive quantity, emit one line from the size times package price table. -/
def rugAcc (pkgs : RugSize → TierQty) (acc : Acc) : Acc :=
  rugSizeList.foldl
    (fun a size =>
      tierKeys.foldl
        (fun a pkg =>
          let qty := (pkgs size).get pkg
          if qty = 0 then a
          else push a ("Area Rug " ++ rugSizeLabel size ++ " - " ++ rugPkgName pkg)
            (qty : ℚ) (rugPrice size pkg) ((qty : ℚ) * rugPrice size pkg))
        a)
    acc

/-- Flea and tick tier (App.js lines 305-319): for positive home square
footage, tier-1 price up to 1600 sqft, tier-2 up to 3200 sqft; above 3200
the price stays 0, the label gains a custom-quote suffix, and since the
line is only pushed when the price is positive nothing is emitted. -/
def fleaAcc (sqft : ℚ) (acc : Acc) : Acc :=
  if 0 < sqft then
    let price : ℚ := if sqft ≤ 1600 then flea1600
      else if sqft ≤ 3200 then flea3200 else 0
    let label : String := if sqft ≤ 3200 then "Move-Out Flea and Tick (AL only)"
      else "Move-Out Flea and Tick (AL only) - custom quote"
    if 0 < price then push acc label 1 price price else acc
  else acc

/-- Pest section (App.js lines 294-319): the two flat toggles then the
flea and tick tier. -/
def pestAcc (monthly oneTime : Bool) (sqft : ℚ) (acc : Acc) : Acc :=
  let a1 := if monthly
    then push acc "Monthly General Pest Control (AL only)" 1 pestMonthlyPrice pestMonthlyPrice
    else acc
  let a2 := if oneTime
    then push a1 "One-Time General Pest Control (AL only)" 1 pestOneTimePrice pestOneTimePrice
    else a1
  fleaAcc sqft a2

/-- Zone fee section (App.js lines 320-325). -/
def zoneAcc (z : Zone) (acc : Acc) : Acc :=
  let zoneFee : ℚ := if z = Zone.extended then extendedFee else 0
  if 0 < zoneFee then push acc "Service Zone Fee" 1 zoneFee zoneFee else acc

/-- Minimum charge adjustment (App.js lines 326-330). -/
def minChargeAcc (acc : Acc) : Acc :=
  if acc.2 < minCharge ∧ 0 < acc.2 then
    let diff := minCharge - acc.2
    push acc "Minimum Charge Adjustment" 1 diff diff
  else acc

/-- The accumulator after all category sections, before the minimum
charge adjustment. -/
def preAcc (sel : Selection) : Acc :=
  zoneAcc sel.zone
    (pestAcc sel.pestMonthly sel.pestOneTime sel.pestHomeSqft
      (rugAcc sel.rugPackages
        (uphAcc sel.uphQty sel.uphDeo sel.uphProt
          (sectionalAcc sel.sectionalCushions sel.sectionalQty
            sel.sectionalDeo sel.sectionalProt
            (tileAcc sel.tileTotalSqft
              (carpetAcc CarpetArea.walkIn sel.walkIn
                (carpetAcc CarpetArea.upLanding sel.upLanding
                  (carpetAcc CarpetArea.downHall sel.downHall
                    (carpetAcc CarpetArea.stairs sel.carpetStairs
                      (carpetAcc CarpetArea.rooms sel.carpetRooms ([], 0)))))))))))

/-- The raw subtotal: the value of `sub` after all category, add-on, pest
and zone-fee lines, before the minimum charge adjustment. -/
def preSubtotal (sel : Selection) : ℚ := (preAcc sel).2

/-- The pricing engine: the value computed by the useMemo hook at
App.js lines 183-331. -/
def computeQuote (sel : Selection) : QuoteSummary :=
  let acc := minChargeAcc (preAcc sel)
  { lines := acc.1, subtotal := acc.2, total := acc.2 }

/-- The all-empty selection: every quantity 0, every flag off, local zone
(the defaults of the React state, with the default 6 sectional cushions). -/
def emptySelection : Selection :=
  { zone := Zone.local
    carpetRooms := TierQty.zero
    carpetStairs := TierQty.zero
    downHall := TierQty.zero
    upLanding := TierQty.zero
    walkIn := TierQty.zero
    tileTotalSqft := 0
    uphQty := fun _ => 0
    uphDeo := fun _ => false
    uphProt := fun _ => false
    sectionalCushions := 6
    sectionalQty := 0
    sectionalDeo := false
    sectionalProt := false
    rugPackages := fun _ => TierQty.zero
    pestMonthly := false
    pestOneTime := false
    pestHomeSqft := 0 }

end JetStream

namespace JetStream

/-! ## Display-order decomposition

Independent list-valued descriptions of each category section, used to
state and prove the structure of the emitted line array. -/

/-- Sum of the total fields of a list of line items. -/
def sumTotals (ls : List LineItem) : ℚ := (ls.map LineItem.total).sum

/-- The lines of one carpet block, in tier-key order. -/
def carpetLines (area : CarpetArea) (q : TierQty) : List LineItem :=
  tierKeys.filterMap fun k =>
    if q.get k = 0 then none
    else some ⟨carpetLabel area k, (q.get k : ℚ), carpetPrice area k,
      ((q.get k : ℚ)) * carpetPrice area k⟩

/-- The lines of the tile section. -/
def tileLines (sqft : ℚ) : List LineItem :=
  let t := max 0 sqft
  if 0 < t then [⟨"Tile and Grout Cleaning", t, tileRate, t * tileRate⟩] else []

/-- The lines of the sectional section: base line then optional add-ons. -/
def sectionalLines (cushions qty : Nat) (deo prot : Bool) : List LineItem :=
  if qty = 0 then []
  else
    let base := (sectionalPrices cushions).getD 0
    let deoEach : ℚ := min deodorizerCap ((jsRound (base * deodorizerPct) : ℤ) : ℚ)
    let fabricEach : ℚ := min fabricProtectorCap ((jsRound (base * fabricProtectorPct) : ℤ) : ℚ)
    [⟨"Sectional - " ++ toString cushions ++ " cushions", (qty : ℚ), base, base * (qty : ℚ)⟩]
      ++ (if deo then [⟨"Sectional - Deodorizer", (qty : ℚ), deoEach, deoEach * (qty : ℚ)⟩] else [])
      ++ (if prot then [⟨"Sectional - Fabric Protector", (qty : ℚ), fabricEach, fabricEach * (qty : ℚ)⟩] else [])

/-- The lines of one non-sectional upholstery item. -/
def uphItemLines (k : UphKey) (qty : Nat) (deo prot : Bool) : List LineItem :=
  if qty = 0 then []
  else
    let base := uphPrice k
    let deoEach : ℚ := min deodorizerCap ((jsRound (base * deodorizerPct) : ℤ) : ℚ)
    let fabricEach : ℚ := min fabricProtectorCap ((jsRound (base * fabricProtectorPct) : ℤ) : ℚ)
    [⟨uphLabel k, (qty : ℚ), base, base * (qty : ℚ)⟩]
      ++ (if deo then [⟨uphLabel k ++ " - Deodorizer", (qty : ℚ), deoEach, deoEach * (qty : ℚ)⟩] else [])
      ++ (if prot then [⟨uphLabel k ++ " - Fabric Protector", (qty : ℚ), fabricEach, fabricEach * (qty : ℚ)⟩] else [])

/-- The lines of the upholstery loop, in `uphKeys` order. -/
def uphLines (qtys : UphKey → Nat) (deo prot : UphKey → Bool) : List LineItem :=
  (uphKeyList.map fun k => uphItemLines k (qtys k) (deo k) (prot k)).flatten

/-- The lines of one rug size row, in package order. -/
def rugSizeLines (size : RugSize) (q : TierQty) : List LineItem :=
  tierKeys.filterMap fun pkg =>
    if q.get pkg = 0 then none
    else some ⟨"Area Rug " ++ rugSizeLabel size ++ " - " ++ rugPkgName pkg,
      (q.get pkg : ℚ), rugPrice size pkg, ((q.get pkg : ℚ)) * rugPrice size pkg⟩

/-- The lines of the rug section, in size order. -/
def rugLines (pkgs : RugSize → TierQty) : List LineItem :=
  (rugSizeList.map fun size => rugSizeLines size (pkgs size)).flatten

/-- The lines of the two flat pest toggles. -/
def pestFlatLines (monthly oneTime : Bool) : List LineItem :=
  (if monthly then [⟨"Monthly General Pest Control (AL only)", 1, pestMonthlyPrice, pestMonthlyPrice⟩] else [])
    ++ (if oneTime then [⟨"One-Time General Pest Control (AL only)", 1, pestOneTimePrice, pestOneTimePrice⟩] else [])

/-- The lines of the flea and tick tier. -/
def fleaLines (sqft : ℚ) : List LineItem :=
  if 0 < sqft then
    if sqft ≤ 1600 then [⟨"Move-Out Flea and Tick (AL only)", 1, flea1600, flea1600⟩]
    else if sqft ≤ 3200 then [⟨"Move-Out Flea and Tick (AL only)", 1, flea3200, flea3200⟩]
    else []
  else []

/-- The lines of the zone fee section. -/
def zoneLines (z : Zone) : List LineItem :=
  if z = Zone.extended then [⟨"Service Zone Fee", 1, extendedFee, extendedFee⟩] else []

/-- All lines before the minimum charge adjustment, in display order. -/
def preLines (sel : Selection) : List LineItem :=
  carpetLines CarpetArea.rooms sel.carpetRooms
    ++ carpetLines CarpetArea.stairs sel.carpetStairs
    ++ carpetLines CarpetArea.downHall sel.downHall
    ++ carpetLines CarpetArea.upLanding sel.upLanding
    ++ carpetLines CarpetArea.walkIn sel.walkIn
    ++ tileLines sel.tileTotalSqft
    ++ sectionalLines sel.sectionalCushions sel.sectionalQty sel.sectionalDeo sel.sectionalProt
    ++ uphLines sel.uphQty sel.uphDeo sel.uphProt
    ++ rugLines sel.rugPackages
    ++ pestFlatLines sel.pestMonthly sel.pestOneTime
    ++ fleaLines sel.pestHomeSqft
    ++ zoneLines sel.zone

/-- The minimum charge adjustment lines appended to a subtotal. -/
def adjLines (sub : ℚ) : List LineItem :=
  if sub < minCharge ∧ 0 < sub
  then [⟨"Minimum Charge Adjustment", 1, minCharge - sub, minCharge - sub⟩]
  else []

/-! ## Concrete selections used to exercise the engine -/

/-- One standard-package carpet room, nothing else. -/
def selCarpet1 : Selection := { emptySelection with carpetRooms := ⟨1, 0, 0⟩ }

/-- Extended zone, nothing selected. -/
def selExtended : Selection := { emptySelection with zone := Zone.extended }

/-- Two ottomans with both add-on flags on. -/
def selOttoman : Selection :=
  { emptySelection with
    uphQty := fun k => if k = UphKey.ottoman then 2 else 0
    uphDeo := fun k => k == UphKey.ottoman
    uphProt := fun k => k == UphKey.ottoman }

/-- Two sectionals with an unsupported cushion count and both add-ons. -/
def selSect13 : Selection :=
  { emptySelection with
    sectionalCushions := 13
    sectionalQty := 2
    sectionalDeo := true
    sectionalProt := true }

/-- Pest-only selection with the given home square footage. -/
def selPest (sqft : ℚ) : Selection := { emptySelection with pestHomeSqft := sqft }

end JetStream

namespace JetStream

/-! ## Structure lemmas: each section appends its own lines -/

theorem sumTotals_nil : sumTotals [] = 0 := rfl

theorem sumTotals_append (a b : List LineItem) :
    sumTotals (a ++ b) = sumTotals a + sumTotals b := by
  simp [sumTotals]

theorem push_eq (acc : Acc) (label : String) (qty each total : ℚ) :
    push acc label qty each total = (acc.1 ++ [⟨label, qty, each, total⟩], acc.2 + total) := rfl

theorem carpetAcc_eq (area : CarpetArea) (q : TierQty) (acc : Acc) :
    carpetAcc area q acc
      = (acc.1 ++ carpetLines area q, acc.2 + sumTotals (carpetLines area q)) := by
  simp only [carpetAcc, tierKeys, carpetLines, List.foldl_cons, List.foldl_nil,
    List.filterMap_cons, List.filterMap_nil]
  split_ifs <;>
    simp [push, sumTotals, List.append_assoc] <;> ring

theorem tileAcc_eq (sqft : ℚ) (acc : Acc) :
    tileAcc sqft acc = (acc.1 ++ tileLines sqft, acc.2 + sumTotals (tileLines sqft)) := by
  simp only [tileAcc, tileLines]
  split_ifs <;> simp [push, sumTotals]

theorem sectionalAcc_eq (cushions qty : Nat) (deo prot : Bool) (acc : Acc) :
    sectionalAcc cushions qty deo prot acc
      = (acc.1 ++ sectionalLines cushions qty deo prot,
         acc.2 + sumTotals (sectionalLines cushions qty deo prot)) := by
  simp only [sectionalAcc, sectionalLines]
  split_ifs <;> simp [push, sumTotals, List.append_assoc] <;> ring

theorem uphItemAcc_eq (k : UphKey) (qty : Nat) (deo prot : Bool) (acc : Acc) :
    uphItemAcc k qty deo prot acc
      = (acc.1 ++ uphItemLines k qty deo prot,
         acc.2 + sumTotals (uphItemLines k qty deo prot)) := by
  simp only [uphItemAcc, uphItemLines]
  split_ifs <;> simp [push, sumTotals, List.append_assoc] <;> ring

theorem foldl_append_of {α : Type} (f : α → Acc → Acc) (L : α → List LineItem)
    (hf : ∀ x acc, f x acc = (acc.1 ++ L x, acc.2 + sumTotals (L x))) :
    ∀ (xs : List α) (acc : Acc),
      xs.foldl (fun a x => f x a) acc
        = (acc.1 ++ (xs.map L).flatten, acc.2 + sumTotals (xs.map L).flatten) := by
  intro xs
  induction xs with
  | nil => intro acc; simp [sumTotals]
  | cons x rest ih =>
      intro acc
      rw [List.foldl_cons]
      show List.foldl (fun a x => f x a) (f x acc) rest = _
      rw [hf, ih]
      simp [sumTotals_append, List.append_assoc, add_assoc]

theorem uphAcc_eq (qtys : UphKey → Nat) (deo prot : UphKey → Bool) (acc : Acc) :
    uphAcc qtys deo prot acc
      = (acc.1 ++ uphLines qtys deo prot, acc.2 + sumTotals (uphLines qtys deo prot)) := by
  exact foldl_append_of (fun k a => uphItemAcc k (qtys k) (deo k) (prot k) a)
    (fun k => uphItemLines k (qtys k) (deo k) (prot k))
    (fun k a => uphItemAcc_eq k (qtys k) (deo k) (prot k) a) uphKeyList acc

theorem rugSizeAcc_eq (size : RugSize) (q : TierQty) (acc : Acc) :
    (tierKeys.foldl
      (fun a pkg =>
        let qty := q.get pkg
        if qty = 0 then a
        else push a ("Area Rug " ++ rugSizeLabel size ++ " - " ++ rugPkgName pkg)
          (qty : ℚ) (rugPrice size pkg) ((qty : ℚ) * rugPrice size pkg))
      acc)
      = (acc.1 ++ rugSizeLines size q, acc.2 + sumTotals (rugSizeLines size q)) := by
  simp only [tierKeys, rugSizeLines, List.foldl_cons, List.foldl_nil,
    List.filterMap_cons, List.filterMap_nil]
  split_ifs <;> simp [push, sumTotals, List.append_assoc] <;> ring

theorem rugAcc_eq (pkgs : RugSize → TierQty) (acc : Acc) :
    rugAcc pkgs acc = (acc.1 ++ rugLines pkgs, acc.2 + sumTotals (rugLines pkgs)) := by
  exact foldl_append_of _ (fun size => rugSizeLines size (pkgs size))
    (fun size a => rugSizeAcc_eq size (pkgs size) a) rugSizeList acc

theorem fleaAcc_eq (sqft : ℚ) (acc : Acc) :
    fleaAcc sqft acc = (acc.1 ++ fleaLines sqft, acc.2 + sumTotals (fleaLines sqft)) := by
  simp only [fleaAcc, fleaLines]
  split_ifs <;> simp_all [push, sumTotals, flea1600, flea3200] <;> linarith

theorem pestAcc_eq (monthly oneTime : Bool) (sqft : ℚ) (acc : Acc) :
    pestAcc monthly oneTime sqft acc
      = (acc.1 ++ (pestFlatLines monthly oneTime ++ fleaLines sqft),
         acc.2 + sumTotals (pestFlatLines monthly oneTime ++ fleaLines sqft)) := by
  simp only [pestAcc, pestFlatLines, fleaAcc_eq, sumTotals_append]
  split_ifs <;> simp [push, sumTotals, List.append_assoc] <;> ring

theorem zoneAcc_eq (z : Zone) (acc : Acc) :
    zoneAcc z acc = (acc.1 ++ zoneLines z, acc.2 + sumTotals (zoneLines z)) := by
  cases z <;>
    simp [zoneAcc, zoneLines, push, sumTotals, extendedFee]

theorem preAcc_eq (sel : Selection) :
    preAcc sel = (preLines sel, sumTotals (preLines sel)) := by
  simp only [preAcc, carpetAcc_eq, tileAcc_eq, sectionalAcc_eq, uphAcc_eq,
    rugAcc_eq, pestAcc_eq, zoneAcc_eq, preLines, sumTotals_append,
    List.append_assoc, List.nil_append, Prod.mk.injEq]
  constructor
  · trivial
  · ring

theorem preSubtotal_eq (sel : Selection) :
    preSubtotal sel = sumTotals (preLines sel) := by
  simp [preSubtotal, preAcc_eq]

theorem computeQuote_lines (sel : Selection) :
    (computeQuote sel).lines = preLines sel ++ adjLines (preSubtotal sel) := by
  simp only [computeQuote, minChargeAcc, adjLines, preSubtotal]
  split_ifs with h
  · simp [push, preAcc_eq, preSubtotal_eq]
  · simp [preAcc_eq]

theorem computeQuote_total (sel : Selection) :
    (computeQuote sel).total
      = (if preSubtotal sel < minCharge ∧ 0 < preSubtotal sel then minCharge
         else preSubtotal sel) := by
  simp only [computeQuote, minChargeAcc, preSubtotal]
  split_ifs with h
  · simp [push]
  · rfl

theorem computeQuote_subtotal (sel : Selection) :
    (computeQuote sel).subtotal = (computeQuote sel).total := rfl

end JetStream

namespace JetStream

/-! ## Label and value characterization of emitted lines -/

theorem ne_of_head {a b : String} (h : a.data.head? ≠ b.data.head?) : a ≠ b :=
  fun e => h (by rw [e])

theorem sectional_head (s : String) : ("Sectional - " ++ s).data.head? = some 'S' := by
  rw [String.data_append]; rfl

theorem areaRug_head (s : String) : ("Area Rug " ++ s).data.head? = some 'A' := by
  rw [String.data_append]; rfl

theorem mem_carpetLines {area : CarpetArea} {q : TierQty} {l : LineItem}
    (h : l ∈ carpetLines area q) : ∃ k, l.label = carpetLabel area k := by
  simp only [carpetLines, List.mem_filterMap] at h
  obtain ⟨k, -, hk⟩ := h
  refine ⟨k, ?_⟩
  split at hk
  · exact absurd hk (by simp)
  · injection hk with h2
    rw [← h2]

theorem mem_ite_singleton {c : Prop} [Decidable c] {x l : LineItem}
    (h : l ∈ if c then [x] else ([] : List LineItem)) : l = x := by
  split at h <;> simp_all

theorem mem_tileLines {t : ℚ} {l : LineItem} (h : l ∈ tileLines t) :
    l.label = "Tile and Grout Cleaning" := by
  simp only [tileLines] at h
  split at h <;> simp_all

theorem mem_sectionalLines {c qty : Nat} {deo prot : Bool} {l : LineItem}
    (h : l ∈ sectionalLines c qty deo prot) : ∃ s, l.label = "Sectional - " ++ s := by
  unfold sectionalLines at h
  split at h
  · simp at h
  · simp only [List.mem_append, List.mem_singleton] at h
    rcases h with (h | h) | h
    · exact ⟨toString c ++ " cushions", by rw [h]; exact String.append_assoc _ _ _⟩
    · rw [mem_ite_singleton h]
      exact ⟨"Deodorizer", rfl⟩
    · rw [mem_ite_singleton h]
      exact ⟨"Fabric Protector", rfl⟩

theorem mem_uphItemLines {k : UphKey} {qty : Nat} {deo prot : Bool} {l : LineItem}
    (h : l ∈ uphItemLines k qty deo prot) :
    l.label = uphLabel k ∨ l.label = uphLabel k ++ " - Deodorizer"
      ∨ l.label = uphLabel k ++ " - Fabric Protector" := by
  unfold uphItemLines at h
  split at h
  · simp at h
  · simp only [List.mem_append, List.mem_singleton] at h
    rcases h with (h | h) | h
    · rw [h]; simp
    · rw [mem_ite_singleton h]; simp
    · rw [mem_ite_singleton h]; simp

theorem mem_uphKeyList (k : UphKey) : k ∈ uphKeyList := by
  cases k <;> simp [uphKeyList]

theorem mem_uphLines {qtys : UphKey → Nat} {deo prot : UphKey → Bool} {l : LineItem}
    (h : l ∈ uphLines qtys deo prot) :
    ∃ k, l.label = uphLabel k ∨ l.label = uphLabel k ++ " - Deodorizer"
      ∨ l.label = uphLabel k ++ " - Fabric Protector" := by
  unfold uphLines at h
  rw [List.mem_flatten] at h
  obtain ⟨ls, hls, hl⟩ := h
  rw [List.mem_map] at hls
  obtain ⟨k, -, rfl⟩ := hls
  exact ⟨k, mem_uphItemLines hl⟩

theorem mem_rugSizeLines {size : RugSize} {q : TierQty} {l : LineItem}
    (h : l ∈ rugSizeLines size q) : ∃ s, l.label = "Area Rug " ++ s := by
  simp only [rugSizeLines, List.mem_filterMap] at h
  obtain ⟨pkg, -, hk⟩ := h
  split at hk
  · exact absurd hk (by simp)
  · injection hk with h2
    refine ⟨rugSizeLabel size ++ " - " ++ rugPkgName pkg, ?_⟩
    rw [← h2]
    show ("Area Rug " ++ rugSizeLabel size) ++ " - " ++ rugPkgName pkg = _
    rw [String.append_assoc, String.append_assoc, String.append_assoc]

theorem mem_rugLines {pkgs : RugSize → TierQty} {l : LineItem}
    (h : l ∈ rugLines pkgs) : ∃ s, l.label = "Area Rug " ++ s := by
  unfold rugLines at h
  rw [List.mem_flatten] at h
  obtain ⟨ls, hls, hl⟩ := h
  rw [List.mem_map] at hls
  obtain ⟨size, -, rfl⟩ := hls
  exact mem_rugSizeLines hl

theorem mem_pestFlatLines {monthly oneTime : Bool} {l : LineItem}
    (h : l ∈ pestFlatLines monthly oneTime) :
    l.label = "Monthly General Pest Control (AL only)"
      ∨ l.label = "One-Time General Pest Control (AL only)" := by
  unfold pestFlatLines at h
  rcases List.mem_append.1 h with h | h
  · rw [mem_ite_singleton h]; simp
  · rw [mem_ite_singleton h]; simp

theorem mem_fleaLines {sqft : ℚ} {l : LineItem} (h : l ∈ fleaLines sqft) :
    l.label = "Move-Out Flea and Tick (AL only)" := by
  unfold fleaLines at h
  split at h
  · split at h
    · simp_all
    · split at h <;> simp_all
  · simp at h

theorem mem_zoneLines {z : Zone} {l : LineItem} (h : l ∈ zoneLines z) :
    l.label = "Service Zone Fee" := by
  unfold zoneLines at h
  split at h <;> simp_all

theorem mem_adjLines {sub : ℚ} {l : LineItem} (h : l ∈ adjLines sub) :
    l.label = "Minimum Charge Adjustment" := by
  unfold adjLines at h
  split at h <;> simp_all

end JetStream

namespace JetStream

/-! ## Every emitted line satisfies total = qty * each -/

theorem total_carpetLines {area : CarpetArea} {q : TierQty} {l : LineItem}
    (h : l ∈ carpetLines area q) : l.total = l.qty * l.each := by
  simp only [carpetLines, List.mem_filterMap] at h
  obtain ⟨k, -, hk⟩ := h
  split at hk
  · exact absurd hk (by simp)
  · injection hk with h2
    rw [← h2]

theorem total_tileLines {t : ℚ} {l : LineItem} (h : l ∈ tileLines t) :
    l.total = l.qty * l.each := by
  simp only [tileLines] at h
  split at h <;> simp_all

theorem total_sectionalLines {c qty : Nat} {deo prot : Bool} {l : LineItem}
    (h : l ∈ sectionalLines c qty deo prot) : l.total = l.qty * l.each := by
  unfold sectionalLines at h
  split at h
  · simp at h
  · simp only [List.mem_append, List.mem_singleton] at h
    rcases h with (h | h) | h
    · rw [h]; exact mul_comm _ _
    · rw [mem_ite_singleton h]; exact mul_comm _ _
    · rw [mem_ite_singleton h]; exact mul_comm _ _

theorem total_uphItemLines {k : UphKey} {qty : Nat} {deo prot : Bool} {l : LineItem}
    (h : l ∈ uphItemLines k qty deo prot) : l.total = l.qty * l.each := by
  unfold uphItemLines at h
  split at h
  · simp at h
  · simp only [List.mem_append, List.mem_singleton] at h
    rcases h with (h | h) | h
    · rw [h]; exact mul_comm _ _
    · rw [mem_ite_singleton h]; exact mul_comm _ _
    · rw [mem_ite_singleton h]; exact mul_comm _ _

theorem total_uphLines {qtys : UphKey → Nat} {deo prot : UphKey → Bool} {l : LineItem}
    (h : l ∈ uphLines qtys deo prot) : l.total = l.qty * l.each := by
  unfold uphLines at h
  rw [List.mem_flatten] at h
  obtain ⟨ls, hls, hl⟩ := h
  rw [List.mem_map] at hls
  obtain ⟨k, -, rfl⟩ := hls
  exact total_uphItemLines hl

theorem total_rugSizeLines {size : RugSize} {q : TierQty} {l : LineItem}
    (h : l ∈ rugSizeLines size q) : l.total = l.qty * l.each := by
  simp only [rugSizeLines, List.mem_filterMap] at h
  obtain ⟨pkg, -, hk⟩ := h
  split at hk
  · exact absurd hk (by simp)
  · injection hk with h2
    rw [← h2]

theorem total_rugLines {pkgs : RugSize → TierQty} {l : LineItem}
    (h : l ∈ rugLines pkgs) : l.total = l.qty * l.each := by
  unfold rugLines at h
  rw [List.mem_flatten] at h
  obtain ⟨ls, hls, hl⟩ := h
  rw [List.mem_map] at hls
  obtain ⟨size, -, rfl⟩ := hls
  exact total_rugSizeLines hl

theorem total_pestFlatLines {monthly oneTime : Bool} {l : LineItem}
    (h : l ∈ pestFlatLines monthly oneTime) : l.total = l.qty * l.each := by
  unfold pestFlatLines at h
  rcases List.mem_append.1 h with h | h <;>
    (rw [mem_ite_singleton h]; exact (one_mul _).symm)

theorem total_fleaLines {sqft : ℚ} {l : LineItem} (h : l ∈ fleaLines sqft) :
    l.total = l.qty * l.each := by
  unfold fleaLines at h
  split at h
  · split at h
    · simp_all
    · split at h <;> simp_all
  · simp at h

theorem total_zoneLines {z : Zone} {l : LineItem} (h : l ∈ zoneLines z) :
    l.total = l.qty * l.each := by
  unfold zoneLines at h
  split at h <;> simp_all

theorem total_adjLines {sub : ℚ} {l : LineItem} (h : l ∈ adjLines sub) :
    l.total = l.qty * l.each := by
  unfold adjLines at h
  split at h <;> simp_all

theorem total_preLines (sel : Selection) :
    ∀ l ∈ preLines sel, l.total = l.qty * l.each := by
  intro l hl
  simp only [preLines, List.mem_append] at hl
  rcases hl with
    ((((((((((hl | hl) | hl) | hl) | hl) | hl) | hl) | hl) | hl) | hl) | hl) | hl
  exacts [total_carpetLines hl, total_carpetLines hl, total_carpetLines hl,
    total_carpetLines hl, total_carpetLines hl, total_tileLines hl,
    total_sectionalLines hl, total_uphLines hl, total_rugLines hl,
    total_pestFlatLines hl, total_fleaLines hl, total_zoneLines hl]

end JetStream

namespace JetStream

/-! ## Nonnegativity of line totals -/

theorem carpetPrice_nonneg (a : CarpetArea) (t : Tier) : 0 ≤ carpetPrice a t := by
  cases a <;> cases t <;> norm_num [carpetPrice]

theorem uphPrice_nonneg (k : UphKey) : 0 ≤ uphPrice k := by
  cases k <;> norm_num [uphPrice]

theorem rugPrice_nonneg (s : RugSize) (t : Tier) : 0 ≤ rugPrice s t := by
  cases s <;> cases t <;> norm_num [rugPrice]

theorem sectionalBase_nonneg (n : Nat) : 0 ≤ (sectionalPrices n).getD 0 := by
  unfold sectionalPrices
  split <;> norm_num

theorem sectionalPrices_none {n : Nat} (h : n < 4 ∨ 12 < n) : sectionalPrices n = none := by
  unfold sectionalPrices
  split <;> first | rfl | omega

theorem addonUnit_nonneg (b pct cap : ℚ) (hb : 0 ≤ b) (hp : 0 ≤ pct) (hc : 0 ≤ cap) :
    0 ≤ min cap ((jsRound (b * pct) : ℤ) : ℚ) := by
  refine le_min hc ?_
  have h0 : (0 : ℤ) ≤ jsRound (b * pct) := by
    rw [jsRound]
    refine Int.le_floor.mpr ?_
    have := mul_nonneg hb hp
    push_cast
    linarith
  exact_mod_cast h0

theorem nonneg_carpetLines {area : CarpetArea} {q : TierQty} {l : LineItem}
    (h : l ∈ carpetLines area q) : 0 ≤ l.total := by
  simp only [carpetLines, List.mem_filterMap] at h
  obtain ⟨k, -, hk⟩ := h
  split at hk
  · exact absurd hk (by simp)
  · injection hk with h2
    rw [← h2]
    exact mul_nonneg (by positivity) (carpetPrice_nonneg area k)

theorem nonneg_tileLines {t : ℚ} {l : LineItem} (h : l ∈ tileLines t) : 0 ≤ l.total := by
  simp only [tileLines] at h
  split at h
  · rw [List.mem_singleton] at h
    rw [h]
    have h1 : (0 : ℚ) ≤ 0 ⊔ t := le_max_left 0 t
    have h2 : (0 : ℚ) ≤ tileRate := by norm_num [tileRate]
    exact mul_nonneg h1 h2
  · simp at h

theorem nonneg_sectionalLines {c qty : Nat} {deo prot : Bool} {l : LineItem}
    (h : l ∈ sectionalLines c qty deo prot) : 0 ≤ l.total := by
  have hb := sectionalBase_nonneg c
  unfold sectionalLines at h
  split at h
  · simp at h
  · simp only [List.mem_append, List.mem_singleton] at h
    rcases h with (h | h) | h
    · rw [h]; exact mul_nonneg hb (by positivity)
    · rw [mem_ite_singleton h]
      exact mul_nonneg (addonUnit_nonneg _ _ _ hb (by norm_num [deodorizerPct]) (by norm_num [deodorizerCap])) (by positivity)
    · rw [mem_ite_singleton h]
      exact mul_nonneg (addonUnit_nonneg _ _ _ hb (by norm_num [fabricProtectorPct]) (by norm_num [fabricProtectorCap])) (by positivity)

theorem nonneg_uphItemLines {k : UphKey} {qty : Nat} {deo prot : Bool} {l : LineItem}
    (h : l ∈ uphItemLines k qty deo prot) : 0 ≤ l.total := by
  have hb := uphPrice_nonneg k
  unfold uphItemLines at h
  split at h
  · simp at h
  · simp only [List.mem_append, List.mem_singleton] at h
    rcases h with (h | h) | h
    · rw [h]; exact mul_nonneg hb (by positivity)
    · rw [mem_ite_singleton h]
      exact mul_nonneg (addonUnit_nonneg _ _ _ hb (by norm_num [deodorizerPct]) (by norm_num [deodorizerCap])) (by positivity)
    · rw [mem_ite_singleton h]
      exact mul_nonneg (addonUnit_nonneg _ _ _ hb (by norm_num [fabricProtectorPct]) (by norm_num [fabricProtectorCap])) (by positivity)

theorem nonneg_uphLines {qtys : UphKey → Nat} {deo prot : UphKey → Bool} {l : LineItem}
    (h : l ∈ uphLines qtys deo prot) : 0 ≤ l.total := by
  unfold uphLines at h
  rw [List.mem_flatten] at h
  obtain ⟨ls, hls, hl⟩ := h
  rw [List.mem_map] at hls
  obtain ⟨k, -, rfl⟩ := hls
  exact nonneg_uphItemLines hl

theorem nonneg_rugSizeLines {size : RugSize} {q : TierQty} {l : LineItem}
    (h : l ∈ rugSizeLines size q) : 0 ≤ l.total := by
  simp only [rugSizeLines, List.mem_filterMap] at h
  obtain ⟨pkg, -, hk⟩ := h
  split at hk
  · exact absurd hk (by simp)
  · injection hk with h2
    rw [← h2]
    exact mul_nonneg (by positivity) (rugPrice_nonneg size pkg)

theorem nonneg_rugLines {pkgs : RugSize → TierQty} {l : LineItem}
    (h : l ∈ rugLines pkgs) : 0 ≤ l.total := by
  unfold rugLines at h
  rw [List.mem_flatten] at h
  obtain ⟨ls, hls, hl⟩ := h
  rw [List.mem_map] at hls
  obtain ⟨size, -, rfl⟩ := hls
  exact nonneg_rugSizeLines hl

theorem nonneg_pestFlatLines {monthly oneTime : Bool} {l : LineItem}
    (h : l ∈ pestFlatLines monthly oneTime) : 0 ≤ l.total := by
  unfold pestFlatLines at h
  rcases List.mem_append.1 h with h | h <;> rw [mem_ite_singleton h] <;>
    norm_num [pestMonthlyPrice, pestOneTimePrice]

theorem nonneg_fleaLines {sqft : ℚ} {l : LineItem} (h : l ∈ fleaLines sqft) :
    0 ≤ l.total := by
  unfold fleaLines at h
  split at h
  · split at h
    · rw [List.mem_singleton] at h; rw [h]; norm_num [flea1600]
    · split at h
      · rw [List.mem_singleton] at h; rw [h]; norm_num [flea3200]
      · simp at h
  · simp at h

theorem nonneg_zoneLines {z : Zone} {l : LineItem} (h : l ∈ zoneLines z) :
    0 ≤ l.total := by
  unfold zoneLines at h
  split at h
  · rw [List.mem_singleton] at h; rw [h]; norm_num [extendedFee]
  · simp at h

theorem sumTotals_nonneg (ls : List LineItem) (h : ∀ l ∈ ls, 0 ≤ l.total) :
    0 ≤ sumTotals ls := by
  unfold sumTotals
  refine List.sum_nonneg ?_
  intro x hx
  rw [List.mem_map] at hx
  obtain ⟨l, hl, rfl⟩ := hx
  exact h l hl

theorem preSubtotal_nonneg (sel : Selection) : 0 ≤ preSubtotal sel := by
  rw [preSubtotal_eq]
  refine sumTotals_nonneg _ ?_
  intro l hl
  simp only [preLines, List.mem_append] at hl
  rcases hl with
    ((((((((((hl | hl) | hl) | hl) | hl) | hl) | hl) | hl) | hl) | hl) | hl) | hl
  exacts [nonneg_carpetLines hl, nonneg_carpetLines hl, nonneg_carpetLines hl,
    nonneg_carpetLines hl, nonneg_carpetLines hl, nonneg_tileLines hl,
    nonneg_sectionalLines hl, nonneg_uphLines hl, nonneg_rugLines hl,
    nonneg_pestFlatLines hl, nonneg_fleaLines hl, nonneg_zoneLines hl]

end JetStream

namespace JetStream

/-! ## No category line carries the adjustment or flea labels wrongly -/

theorem preLines_no_adj (sel : Selection) :
    ∀ l ∈ preLines sel, ¬ l.label = "Minimum Charge Adjustment" := by
  intro l hl
  simp only [preLines, List.mem_append] at hl
  rcases hl with
    ((((((((((hl | hl) | hl) | hl) | hl) | hl) | hl) | hl) | hl) | hl) | hl) | hl
  · obtain ⟨k, hk⟩ := mem_carpetLines hl; rw [hk]; cases k <;> decide
  · obtain ⟨k, hk⟩ := mem_carpetLines hl; rw [hk]; cases k <;> decide
  · obtain ⟨k, hk⟩ := mem_carpetLines hl; rw [hk]; cases k <;> decide
  · obtain ⟨k, hk⟩ := mem_carpetLines hl; rw [hk]; cases k <;> decide
  · obtain ⟨k, hk⟩ := mem_carpetLines hl; rw [hk]; cases k <;> decide
  · rw [mem_tileLines hl]; decide
  · obtain ⟨s, hs⟩ := mem_sectionalLines hl
    rw [hs]
    exact ne_of_head (by rw [sectional_head]; decide)
  · obtain ⟨k, hk | hk | hk⟩ := mem_uphLines hl <;> rw [hk] <;> cases k <;> decide
  · obtain ⟨s, hs⟩ := mem_rugLines hl
    rw [hs]
    exact ne_of_head (by rw [areaRug_head]; decide)
  · rcases mem_pestFlatLines hl with h | h <;> rw [h] <;> decide
  · rw [mem_fleaLines hl]; decide
  · rw [mem_zoneLines hl]; decide

theorem fleaLines_of_gt {sqft : ℚ} (h : 3200 < sqft) : fleaLines sqft = [] := by
  unfold fleaLines
  rw [if_pos (by linarith), if_neg (by push_neg; linarith), if_neg (by push_neg; linarith)]

theorem lines_no_flea (sel : Selection) (hsq : 3200 < sel.pestHomeSqft) :
    ∀ l ∈ (computeQuote sel).lines,
      ¬ l.label = "Move-Out Flea and Tick (AL only)"
        ∧ ¬ l.label = "Move-Out Flea and Tick (AL only) - custom quote" := by
  intro l hl
  rw [computeQuote_lines] at hl
  rcases List.mem_append.1 hl with hl | hl
  · simp only [preLines, List.mem_append] at hl
    rcases hl with
      ((((((((((hl | hl) | hl) | hl) | hl) | hl) | hl) | hl) | hl) | hl) | hl) | hl
    · obtain ⟨k, hk⟩ := mem_carpetLines hl; rw [hk]; cases k <;> exact ⟨by decide, by decide⟩
    · obtain ⟨k, hk⟩ := mem_carpetLines hl; rw [hk]; cases k <;> exact ⟨by decide, by decide⟩
    · obtain ⟨k, hk⟩ := mem_carpetLines hl; rw [hk]; cases k <;> exact ⟨by decide, by decide⟩
    · obtain ⟨k, hk⟩ := mem_carpetLines hl; rw [hk]; cases k <;> exact ⟨by decide, by decide⟩
    · obtain ⟨k, hk⟩ := mem_carpetLines hl; rw [hk]; cases k <;> exact ⟨by decide, by decide⟩
    · rw [mem_tileLines hl]; exact ⟨by decide, by decide⟩
    · obtain ⟨s, hs⟩ := mem_sectionalLines hl
      rw [hs]
      exact ⟨ne_of_head (by rw [sectional_head]; decide),
        ne_of_head (by rw [sectional_head]; decide)⟩
    · obtain ⟨k, hk | hk | hk⟩ := mem_uphLines hl <;> rw [hk] <;> cases k <;>
        exact ⟨by decide, by decide⟩
    · obtain ⟨s, hs⟩ := mem_rugLines hl
      rw [hs]
      exact ⟨ne_of_head (by rw [areaRug_head]; decide),
        ne_of_head (by rw [areaRug_head]; decide)⟩
    · rcases mem_pestFlatLines hl with h | h <;> rw [h] <;> exact ⟨by decide, by decide⟩
    · rw [fleaLines_of_gt hsq] at hl; simp at hl
    · rw [mem_zoneLines hl]; exact ⟨by decide, by decide⟩
  · rw [mem_adjLines hl]; exact ⟨by decide, by decide⟩

end JetStream

namespace JetStream

/-! ## Empty-section lemmas -/

theorem carpetLines_zero (area : CarpetArea) : carpetLines area TierQty.zero = [] := rfl

theorem tileLines_zero : tileLines 0 = [] := by
  norm_num [tileLines]

theorem sectionalLines_zero (c : Nat) (deo prot : Bool) :
    sectionalLines c 0 deo prot = [] := rfl

theorem uphLines_zero (qtys : UphKey → Nat) (deo prot : UphKey → Bool)
    (h : ∀ k, qtys k = 0) : uphLines qtys deo prot = [] := by
  simp [uphLines, uphKeyList, uphItemLines, h]

theorem rugSizeLines_zero (size : RugSize) : rugSizeLines size TierQty.zero = [] := rfl

theorem rugLines_zero (pkgs : RugSize → TierQty) (h : ∀ s, pkgs s = TierQty.zero) :
    rugLines pkgs = [] := by
  simp [rugLines, rugSizeList, h, rugSizeLines_zero]

theorem pestFlatLines_false : pestFlatLines false false = [] := rfl

theorem fleaLines_zero : fleaLines 0 = [] := by
  norm_num [fleaLines]

theorem zoneLines_local : zoneLines Zone.local = [] := rfl

theorem adjLines_zero : adjLines 0 = [] := by
  norm_num [adjLines]

theorem adjLines_of_ge {sub : ℚ} (h : minCharge ≤ sub) : adjLines sub = [] := by
  unfold adjLines
  rw [if_neg]
  intro hc
  exact absurd h (not_le.2 hc.1)

theorem adjLines_of_between {sub : ℚ} (h0 : 0 < sub) (h1 : sub < minCharge) :
    adjLines sub = [⟨"Minimum Charge Adjustment", 1, minCharge - sub, minCharge - sub⟩] := by
  unfold adjLines
  rw [if_pos ⟨h1, h0⟩]

/-- A carpet block with exactly one nonzero tier emits exactly one line. -/
theorem carpetLines_single (area : CarpetArea) (q : TierQty) (tier : Tier)
    (hn : ¬ q.get tier = 0) (h0 : ∀ t, t ≠ tier → q.get t = 0) :
    carpetLines area q
      = [⟨carpetLabel area tier, (q.get tier : ℚ), carpetPrice area tier,
          ((q.get tier : ℚ)) * carpetPrice area tier⟩] := by
  cases tier
  · have h1 := h0 Tier.reset (by decide)
    have h2 := h0 Tier.deluxe (by decide)
    simp [carpetLines, tierKeys, hn, h1, h2]
  · have h1 := h0 Tier.standard (by decide)
    have h2 := h0 Tier.deluxe (by decide)
    simp [carpetLines, tierKeys, hn, h1, h2]
  · have h1 := h0 Tier.standard (by decide)
    have h2 := h0 Tier.reset (by decide)
    simp [carpetLines, tierKeys, hn, h1, h2]

end JetStream

namespace JetStream

/-! ## Additional helper lemmas -/

theorem qs_ext {a b : QuoteSummary} (h1 : a.lines = b.lines)
    (h2 : a.subtotal = b.subtotal) (h3 : a.total = b.total) : a = b := by
  cases a; cases b; simp_all

theorem carpetLines_nil (area : CarpetArea) (q : TierQty) (h : ∀ t, q.get t = 0) :
    carpetLines area q = [] := by
  simp [carpetLines, tierKeys, h]

theorem carpetPrice_pos (a : CarpetArea) (t : Tier) : 0 < carpetPrice a t := by
  cases a <;> cases t <;> norm_num [carpetPrice]

theorem countP_preLines_adj (sel : Selection) :
    (preLines sel).countP (fun l => l.label == "Minimum Charge Adjustment") = 0 := by
  rw [List.countP_eq_zero]
  intro l hl
  simpa using preLines_no_adj sel l hl

theorem mem_lines_of_sectional {sel : Selection} {l : LineItem}
    (h : l ∈ sectionalLines sel.sectionalCushions sel.sectionalQty
      sel.sectionalDeo sel.sectionalProt) : l ∈ (computeQuote sel).lines := by
  rw [computeQuote_lines]
  refine List.mem_append_left _ ?_
  show l ∈ preLines sel
  simp only [preLines]
  exact List.mem_append_left _ (List.mem_append_left _ (List.mem_append_left _
    (List.mem_append_left _ (List.mem_append_left _ (List.mem_append_right _ h)))))

theorem mem_lines_of_uph {sel : Selection} {l : LineItem}
    (h : l ∈ uphLines sel.uphQty sel.uphDeo sel.uphProt) :
    l ∈ (computeQuote sel).lines := by
  rw [computeQuote_lines]
  refine List.mem_append_left _ ?_
  show l ∈ preLines sel
  simp only [preLines]
  exact List.mem_append_left _ (List.mem_append_left _ (List.mem_append_left _
    (List.mem_append_left _ (List.mem_append_right _ h))))

theorem mem_lines_of_flea {sel : Selection} {l : LineItem}
    (h : l ∈ fleaLines sel.pestHomeSqft) : l ∈ (computeQuote sel).lines := by
  rw [computeQuote_lines]
  refine List.mem_append_left _ ?_
  show l ∈ preLines sel
  simp only [preLines]
  exact List.mem_append_left _ (List.mem_append_right _ h)

end JetStream

namespace JetStream

/-- C1: Minimum-charge law.  For every selection with raw subtotal s: if
0 < s < 135 (= RATES.minCharge) the engine appends exactly one Minimum
Charge Adjustment line of value minCharge - s and the total is exactly
minCharge; if s = 0 no adjustment line is emitted and the total is 0; if
s >= minCharge no adjustment line appears and the total equals s. -/
theorem claim1_minimum_charge_law (sel : Selection) :
    minCharge = 135
    ∧ (0 < preSubtotal sel → preSubtotal sel < minCharge →
        (computeQuote sel).lines
            = preLines sel
              ++ [⟨"Minimum Charge Adjustment", 1, minCharge - preSubtotal sel,
                   minCharge - preSubtotal sel⟩]
          ∧ ((computeQuote sel).lines.countP
              (fun l => l.label == "Minimum Charge Adjustment")) = 1
          ∧ (computeQuote sel).total = minCharge)
    ∧ (preSubtotal sel = 0 →
        ((computeQuote sel).lines.countP
            (fun l => l.label == "Minimum Charge Adjustment")) = 0
          ∧ (computeQuote sel).total = 0)
    ∧ (minCharge ≤ preSubtotal sel →
        ((computeQuote sel).lines.countP
            (fun l => l.label == "Minimum Charge Adjustment")) = 0
          ∧ (computeQuote sel).total = preSubtotal sel) := by
  refine ⟨rfl, ?_, ?_, ?_⟩
  · intro h0 h1
    have hl := computeQuote_lines sel
    rw [adjLines_of_between h0 h1] at hl
    refine ⟨hl, ?_, ?_⟩
    · rw [hl, List.countP_append, countP_preLines_adj]
      simp [List.countP_cons]
    · rw [computeQuote_total, if_pos ⟨h1, h0⟩]
  · intro h0
    have hl := computeQuote_lines sel
    rw [h0, adjLines_zero, List.append_nil] at hl
    constructor
    · rw [hl]
      exact countP_preLines_adj sel
    · rw [computeQuote_total, h0, if_neg (fun hc => lt_irrefl 0 hc.2)]
  · intro hge
    have hl := computeQuote_lines sel
    rw [adjLines_of_ge hge, List.append_nil] at hl
    refine ⟨?_, ?_⟩
    · rw [hl]
      exact countP_preLines_adj sel
    · rw [computeQuote_total, if_neg (fun hc => absurd hge (not_le.2 hc.1))]

/-- Witness for C1 at the one-room selection: subtotal 45 is strictly
between 0 and the minimum charge and the total is raised to 135. -/
theorem claim1_minimum_charge_law_witness :
    (0 < preSubtotal selCarpet1 ∧ preSubtotal selCarpet1 < minCharge)
    ∧ (computeQuote selCarpet1).total = minCharge := by
  have h0 : preSubtotal selCarpet1 = 45 := by
    norm_num [preSubtotal, preAcc, zoneAcc, pestAcc, fleaAcc, rugAcc, uphAcc,
      uphItemAcc, uphKeyList, sectionalAcc, tileAcc, carpetAcc, tierKeys,
      rugSizeList, push, selCarpet1, emptySelection, TierQty.zero, TierQty.get,
      carpetPrice, extendedFee, show Zone.local ≠ Zone.extended by decide]
  have hp : 0 < preSubtotal selCarpet1 := by rw [h0]; norm_num
  have hq : preSubtotal selCarpet1 < minCharge := by rw [h0]; norm_num [minCharge]
  exact ⟨⟨hp, hq⟩, ((claim1_minimum_charge_law selCarpet1).2.1 hp hq).2.2⟩

/-- C5: Line ordering.  The emitted lines are exactly the concatenation,
in the fixed category traversal order, of carpet rooms, stairs, downstairs
hallway, upstairs landing, walk-in closet, tile, sectional with its
add-ons, the remaining upholstery items each with their add-ons in the
fixed item order, rugs by fixed size and package order, pest control
(monthly, one-time, flea tier), zone fee, and the minimum-charge
adjustment. -/
theorem claim5_line_order (sel : Selection) :
    (computeQuote sel).lines
      = carpetLines CarpetArea.rooms sel.carpetRooms
          ++ carpetLines CarpetArea.stairs sel.carpetStairs
          ++ carpetLines CarpetArea.downHall sel.downHall
          ++ carpetLines CarpetArea.upLanding sel.upLanding
          ++ carpetLines CarpetArea.walkIn sel.walkIn
          ++ tileLines sel.tileTotalSqft
          ++ sectionalLines sel.sectionalCushions sel.sectionalQty
               sel.sectionalDeo sel.sectionalProt
          ++ uphLines sel.uphQty sel.uphDeo sel.uphProt
          ++ rugLines sel.rugPackages
          ++ pestFlatLines sel.pestMonthly sel.pestOneTime
          ++ fleaLines sel.pestHomeSqft
          ++ zoneLines sel.zone
          ++ adjLines (preSubtotal sel) := by
  rw [computeQuote_lines]
  simp [preLines, List.append_assoc]

/-- C7: QuoteSummary invariants.  Every emitted line satisfies
lineTotal = quantity * unitPrice, and the returned total is the sum of
all line totals. -/
theorem claim7_invariants (sel : Selection) :
    (∀ l ∈ (computeQuote sel).lines, l.total = l.qty * l.each)
    ∧ (computeQuote sel).total = sumTotals (computeQuote sel).lines := by
  constructor
  · intro l hl
    rw [computeQuote_lines] at hl
    rcases List.mem_append.1 hl with h | h
    · exact total_preLines sel l h
    · exact total_adjLines h
  · rw [computeQuote_lines, computeQuote_total, sumTotals_append, ← preSubtotal_eq]
    by_cases hc : preSubtotal sel < minCharge ∧ 0 < preSubtotal sel
    · rw [if_pos hc, adjLines_of_between hc.2 hc.1]
      simp [sumTotals]
    · rw [if_neg hc]
      unfold adjLines
      rw [if_neg hc]
      simp [sumTotals]

end JetStream

namespace JetStream

/-- C8: Empty selection.  For every selection in which every quantity is
0 and no flags or toggles are set (local zone), the engine returns an
empty line list and total 0. -/
theorem claim8_empty_selection (sel : Selection)
    (hz : sel.zone = Zone.local)
    (h1 : sel.carpetRooms = TierQty.zero) (h2 : sel.carpetStairs = TierQty.zero)
    (h3 : sel.downHall = TierQty.zero) (h4 : sel.upLanding = TierQty.zero)
    (h5 : sel.walkIn = TierQty.zero)
    (ht : sel.tileTotalSqft = 0)
    (hu : ∀ k, sel.uphQty k = 0)
    (hud : ∀ k, sel.uphDeo k = false) (hup : ∀ k, sel.uphProt k = false)
    (hsq : sel.sectionalQty = 0)
    (hsd : sel.sectionalDeo = false) (hsp : sel.sectionalProt = false)
    (hr : ∀ s, sel.rugPackages s = TierQty.zero)
    (hm : sel.pestMonthly = false) (ho : sel.pestOneTime = false)
    (hp : sel.pestHomeSqft = 0) :
    (computeQuote sel).lines = [] ∧ (computeQuote sel).total = 0 := by
  have hpre : preLines sel = [] := by
    rw [preLines, h1, h2, h3, h4, h5, ht, hsq, hm, ho, hp, hz]
    rw [carpetLines_zero, carpetLines_zero, carpetLines_zero, carpetLines_zero,
      carpetLines_zero, tileLines_zero, sectionalLines_zero,
      uphLines_zero _ _ _ hu, rugLines_zero _ hr, pestFlatLines_false,
      fleaLines_zero, zoneLines_local]
    rfl
  have hsub : preSubtotal sel = 0 := by
    rw [preSubtotal_eq, hpre]
    rfl
  constructor
  · rw [computeQuote_lines, hpre, hsub, adjLines_zero]
    rfl
  · rw [computeQuote_total, hsub, if_neg (fun hc => lt_irrefl 0 hc.2)]

/-- Witness for C8 at the all-empty selection. -/
theorem claim8_empty_selection_witness :
    (computeQuote emptySelection).lines = [] ∧ (computeQuote emptySelection).total = 0 :=
  claim8_empty_selection emptySelection rfl rfl rfl rfl rfl rfl rfl
    (fun _ => rfl) (fun _ => rfl) (fun _ => rfl) rfl rfl rfl
    (fun _ => rfl) rfl rfl rfl

/-- C9: Extended zone with an otherwise empty selection yields exactly a
Service Zone Fee line of 45 and a Minimum Charge Adjustment line of 90,
with total exactly 135: the zone fee alone counts toward the subtotal and
triggers the minimum-charge floor. -/
theorem claim9_extended_zone_floor (sel : Selection)
    (hz : sel.zone = Zone.extended)
    (h1 : sel.carpetRooms = TierQty.zero) (h2 : sel.carpetStairs = TierQty.zero)
    (h3 : sel.downHall = TierQty.zero) (h4 : sel.upLanding = TierQty.zero)
    (h5 : sel.walkIn = TierQty.zero)
    (ht : sel.tileTotalSqft = 0)
    (hu : ∀ k, sel.uphQty k = 0)
    (hsq : sel.sectionalQty = 0)
    (hr : ∀ s, sel.rugPackages s = TierQty.zero)
    (hm : sel.pestMonthly = false) (ho : sel.pestOneTime = false)
    (hp : sel.pestHomeSqft = 0) :
    (computeQuote sel).lines
        = [⟨"Service Zone Fee", 1, 45, 45⟩, ⟨"Minimum Charge Adjustment", 1, 90, 90⟩]
    ∧ (computeQuote sel).total = 135 := by
  have hpre : preLines sel = [⟨"Service Zone Fee", 1, 45, 45⟩] := by
    rw [preLines, h1, h2, h3, h4, h5, ht, hsq, hm, ho, hp, hz]
    rw [carpetLines_zero, carpetLines_zero, carpetLines_zero, carpetLines_zero,
      carpetLines_zero, tileLines_zero, sectionalLines_zero,
      uphLines_zero _ _ _ hu, rugLines_zero _ hr, pestFlatLines_false,
      fleaLines_zero]
    norm_num [zoneLines, extendedFee]
  have hsub : preSubtotal sel = 45 := by
    rw [preSubtotal_eq, hpre]
    norm_num [sumTotals]
  constructor
  · rw [computeQuote_lines, hpre, hsub]
    unfold adjLines
    rw [if_pos (by norm_num [minCharge])]
    norm_num [minCharge]
  · rw [computeQuote_total, hsub, if_pos (by norm_num [minCharge])]
    norm_num [minCharge]

/-- Witness for C9 at the concrete extended-zone empty selection. -/
theorem claim9_extended_zone_floor_witness :
    (computeQuote selExtended).lines
        = [⟨"Service Zone Fee", 1, 45, 45⟩, ⟨"Minimum Charge Adjustment", 1, 90, 90⟩]
    ∧ (computeQuote selExtended).total = 135 :=
  claim9_extended_zone_floor selExtended rfl rfl rfl rfl rfl rfl rfl
    (fun _ => rfl) rfl (fun _ => rfl) rfl rfl rfl

/-- C10: For every selection with non-negative numeric inputs the total
is never negative, and is either exactly 0 or at least the minimum
charge 135; no total strictly between 0 and 135 is reachable. -/
theorem claim10_total_floor (sel : Selection)
    (h1 : 0 ≤ sel.tileTotalSqft) (h2 : 0 ≤ sel.pestHomeSqft) :
    0 ≤ (computeQuote sel).total
    ∧ ((computeQuote sel).total = 0 ∨ minCharge ≤ (computeQuote sel).total) := by
  have hs := preSubtotal_nonneg sel
  rw [computeQuote_total]
  by_cases hc : preSubtotal sel < minCharge ∧ 0 < preSubtotal sel
  · rw [if_pos hc]
    norm_num [minCharge]
  · rw [if_neg hc]
    rcases not_and_or.1 hc with h | h
    · have hge := not_lt.1 h
      exact ⟨le_trans (by norm_num [minCharge]) hge, Or.inr hge⟩
    · have h0 : preSubtotal sel = 0 := le_antisymm (not_lt.1 h) hs
      exact ⟨by rw [h0], Or.inl h0⟩

/-- Witness for C10 at the all-empty selection, whose total is 0. -/
theorem claim10_total_floor_witness :
    0 ≤ (computeQuote emptySelection).total
    ∧ ((computeQuote emptySelection).total = 0
        ∨ minCharge ≤ (computeQuote emptySelection).total) :=
  claim10_total_floor emptySelection (le_refl 0) (le_refl 0)

end JetStream

namespace JetStream

/-- C4 (amended): Single-carpet selection.  With exactly one carpet
(areaType, tier) pair at nonzero quantity and everything else zero or off
in the local zone, the engine emits that one carpet line of total
q * price[areaType][tier], followed only by the minimum-charge adjustment
line exactly when q * price is below the minimum charge; the total is the
line total or the 135 floor, whichever is larger. -/
theorem claim4_single_carpet (sel : Selection) (area : CarpetArea) (tier : Tier)
    (hz : sel.zone = Zone.local)
    (hq : ¬ (sel.carpetOf area).get tier = 0)
    (hother : ∀ a t, ¬(a = area ∧ t = tier) → (sel.carpetOf a).get t = 0)
    (ht : sel.tileTotalSqft = 0)
    (hu : ∀ k, sel.uphQty k = 0)
    (hsq : sel.sectionalQty = 0)
    (hr : ∀ s, sel.rugPackages s = TierQty.zero)
    (hm : sel.pestMonthly = false) (ho : sel.pestOneTime = false)
    (hp : sel.pestHomeSqft = 0) :
    (computeQuote sel).lines
        = ⟨carpetLabel area tier, ((sel.carpetOf area).get tier : ℚ),
            carpetPrice area tier,
            ((sel.carpetOf area).get tier : ℚ) * carpetPrice area tier⟩
          :: adjLines (((sel.carpetOf area).get tier : ℚ) * carpetPrice area tier)
    ∧ (computeQuote sel).total
        = (if ((sel.carpetOf area).get tier : ℚ) * carpetPrice area tier < minCharge
           then minCharge
           else ((sel.carpetOf area).get tier : ℚ) * carpetPrice area tier) := by
  have hpos : 0 < ((sel.carpetOf area).get tier : ℚ) * carpetPrice area tier :=
    mul_pos (by exact_mod_cast Nat.pos_of_ne_zero hq) (carpetPrice_pos area tier)
  have hpre : preLines sel
      = [⟨carpetLabel area tier, ((sel.carpetOf area).get tier : ℚ),
          carpetPrice area tier,
          ((sel.carpetOf area).get tier : ℚ) * carpetPrice area tier⟩] := by
    rw [preLines, ht, hsq, hm, ho, hp, hz]
    rw [tileLines_zero, sectionalLines_zero, uphLines_zero _ _ _ hu,
      rugLines_zero _ hr, pestFlatLines_false, fleaLines_zero, zoneLines_local]
    cases area
    case rooms =>
      rw [carpetLines_single CarpetArea.rooms sel.carpetRooms tier hq
            (fun t htn => hother CarpetArea.rooms t (fun hand => htn hand.2)),
          carpetLines_nil CarpetArea.stairs sel.carpetStairs
            (fun t => hother CarpetArea.stairs t (fun hand => absurd hand.1 (by decide))),
          carpetLines_nil CarpetArea.downHall sel.downHall
            (fun t => hother CarpetArea.downHall t (fun hand => absurd hand.1 (by decide))),
          carpetLines_nil CarpetArea.upLanding sel.upLanding
            (fun t => hother CarpetArea.upLanding t (fun hand => absurd hand.1 (by decide))),
          carpetLines_nil CarpetArea.walkIn sel.walkIn
            (fun t => hother CarpetArea.walkIn t (fun hand => absurd hand.1 (by decide)))]
      simp [Selection.carpetOf]
    case stairs =>
      rw [carpetLines_single CarpetArea.stairs sel.carpetStairs tier hq
            (fun t htn => hother CarpetArea.stairs t (fun hand => htn hand.2)),
          carpetLines_nil CarpetArea.rooms sel.carpetRooms
            (fun t => hother CarpetArea.rooms t (fun hand => absurd hand.1 (by decide))),
          carpetLines_nil CarpetArea.downHall sel.downHall
            (fun t => hother CarpetArea.downHall t (fun hand => absurd hand.1 (by decide))),
          carpetLines_nil CarpetArea.upLanding sel.upLanding
            (fun t => hother CarpetArea.upLanding t (fun hand => absurd hand.1 (by decide))),
          carpetLines_nil CarpetArea.walkIn sel.walkIn
            (fun t => hother CarpetArea.walkIn t (fun hand => absurd hand.1 (by decide)))]
      simp [Selection.carpetOf]
    case downHall =>
      rw [carpetLines_single CarpetArea.downHall sel.downHall tier hq
            (fun t htn => hother CarpetArea.downHall t (fun hand => htn hand.2)),
          carpetLines_nil CarpetArea.rooms sel.carpetRooms
            (fun t => hother CarpetArea.rooms t (fun hand => absurd hand.1 (by decide))),
          carpetLines_nil CarpetArea.stairs sel.carpetStairs
            (fun t => hother CarpetArea.stairs t (fun hand => absurd hand.1 (by decide))),
          carpetLines_nil CarpetArea.upLanding sel.upLanding
            (fun t => hother CarpetArea.upLanding t (fun hand => absurd hand.1 (by decide))),
          carpetLines_nil CarpetArea.walkIn sel.walkIn
            (fun t => hother CarpetArea.walkIn t (fun hand => absurd hand.1 (by decide)))]
      simp [Selection.carpetOf]
    case upLanding =>
      rw [carpetLines_single CarpetArea.upLanding sel.upLanding tier hq
            (fun t htn => hother CarpetArea.upLanding t (fun hand => htn hand.2)),
          carpetLines_nil CarpetArea.rooms sel.carpetRooms
            (fun t => hother CarpetArea.rooms t (fun hand => absurd hand.1 (by decide))),
          carpetLines_nil CarpetArea.stairs sel.carpetStairs
            (fun t => hother CarpetArea.stairs t (fun hand => absurd hand.1 (by decide))),
          carpetLines_nil CarpetArea.downHall sel.downHall
            (fun t => hother CarpetArea.downHall t (fun hand => absurd hand.1 (by decide))),
          carpetLines_nil CarpetArea.walkIn sel.walkIn
            (fun t => hother CarpetArea.walkIn t (fun hand => absurd hand.1 (by decide)))]
      simp [Selection.carpetOf]
    case walkIn =>
      rw [carpetLines_single CarpetArea.walkIn sel.walkIn tier hq
            (fun t htn => hother CarpetArea.walkIn t (fun hand => htn hand.2)),
          carpetLines_nil CarpetArea.rooms sel.carpetRooms
            (fun t => hother CarpetArea.rooms t (fun hand => absurd hand.1 (by decide))),
          carpetLines_nil CarpetArea.stairs sel.carpetStairs
            (fun t => hother CarpetArea.stairs t (fun hand => absurd hand.1 (by decide))),
          carpetLines_nil CarpetArea.downHall sel.downHall
            (fun t => hother CarpetArea.downHall t (fun hand => absurd hand.1 (by decide))),
          carpetLines_nil CarpetArea.upLanding sel.upLanding
            (fun t => hother CarpetArea.upLanding t (fun hand => absurd hand.1 (by decide)))]
      simp [Selection.carpetOf]
  have hsub : preSubtotal sel
      = ((sel.carpetOf area).get tier : ℚ) * carpetPrice area tier := by
    rw [preSubtotal_eq, hpre]
    simp [sumTotals]
  constructor
  · rw [computeQuote_lines, hpre, hsub, List.singleton_append]
  · rw [computeQuote_total, hsub]
    by_cases hlt : ((sel.carpetOf area).get tier : ℚ) * carpetPrice area tier < minCharge
    · rw [if_pos ⟨hlt, hpos⟩, if_pos hlt]
    · rw [if_neg (fun hcc => hlt hcc.1), if_neg hlt]

/-- C4 counterexample: for one standard room (q = 1, price 45) the claim
as stated fails: the emitted line list is not just the carpet line — the
engine also appends a Minimum Charge Adjustment line. -/
theorem claim4_counterexample :
    ¬ (computeQuote selCarpet1).lines = [⟨"Standard Steam Clean", 1, 45, 45⟩]
    ∧ (computeQuote selCarpet1).lines
        = [⟨"Standard Steam Clean", 1, 45, 45⟩,
           ⟨"Minimum Charge Adjustment", 1, 90, 90⟩] := by
  have h : (computeQuote selCarpet1).lines
      = [⟨"Standard Steam Clean", 1, 45, 45⟩,
         ⟨"Minimum Charge Adjustment", 1, 90, 90⟩] := by
    norm_num [computeQuote, minChargeAcc, preAcc, zoneAcc, pestAcc, fleaAcc,
      rugAcc, uphAcc, uphItemAcc, uphKeyList, sectionalAcc, tileAcc, carpetAcc,
      tierKeys, rugSizeList, push, selCarpet1, emptySelection, TierQty.zero,
      TierQty.get, carpetPrice, carpetLabel, minCharge, extendedFee,
      show Zone.local ≠ Zone.extended by decide]
  refine ⟨?_, h⟩
  rw [h]
  simp

/-- Witness for amended C4 at one standard room. -/
theorem claim4_single_carpet_witness :
    (computeQuote selCarpet1).lines
        = [⟨"Standard Steam Clean", 1, 45, 45⟩,
           ⟨"Minimum Charge Adjustment", 1, 90, 90⟩]
    ∧ (computeQuote selCarpet1).total = 135 := by
  have h := claim4_single_carpet selCarpet1 CarpetArea.rooms Tier.standard rfl
    (by decide)
    (by
      intro a t hh
      cases a <;> cases t <;>
        simp_all [Selection.carpetOf, selCarpet1, emptySelection, TierQty.get, TierQty.zero])
    rfl (fun _ => rfl) rfl (fun _ => rfl) rfl rfl rfl
  obtain ⟨h1, h2⟩ := h
  norm_num [Selection.carpetOf, selCarpet1, emptySelection, TierQty.get,
    carpetLabel, carpetPrice, adjLines, minCharge] at h1 h2
  exact ⟨h1, h2⟩

end JetStream

namespace JetStream

/-- C3 (amended): Flea/tick tiering.  For 0 < sqft <= 1600 a line priced
at the tier-1 flat price 149 is emitted; for 1600 < sqft <= 3200 a line at
the tier-2 flat price 300; for sqft > 3200 neither a priced line nor a
label-only line is emitted for flea/tick, and no custom-quote indication
reaches the caller: the returned summary is identical to the one computed
with zero pest square footage. -/
theorem claim3_flea_tiering (sel : Selection) :
    (0 < sel.pestHomeSqft → sel.pestHomeSqft ≤ 1600 →
        (⟨"Move-Out Flea and Tick (AL only)", 1, 149, 149⟩ : LineItem)
          ∈ (computeQuote sel).lines)
    ∧ (1600 < sel.pestHomeSqft → sel.pestHomeSqft ≤ 3200 →
        (⟨"Move-Out Flea and Tick (AL only)", 1, 300, 300⟩ : LineItem)
          ∈ (computeQuote sel).lines)
    ∧ (3200 < sel.pestHomeSqft →
        (∀ l ∈ (computeQuote sel).lines,
            ¬ l.label = "Move-Out Flea and Tick (AL only)"
              ∧ ¬ l.label = "Move-Out Flea and Tick (AL only) - custom quote")
          ∧ computeQuote sel = computeQuote { sel with pestHomeSqft := 0 }) := by
  refine ⟨?_, ?_, ?_⟩
  · intro h0 h1
    refine mem_lines_of_flea ?_
    unfold fleaLines
    rw [if_pos h0, if_pos h1]
    norm_num [flea1600]
  · intro h16 h32
    refine mem_lines_of_flea ?_
    unfold fleaLines
    rw [if_pos (by linarith), if_neg (by push_neg; linarith), if_pos h32]
    norm_num [flea3200]
  · intro hgt
    refine ⟨lines_no_flea sel hgt, ?_⟩
    have hpl : preLines { sel with pestHomeSqft := 0 } = preLines sel := by
      show preLines { sel with pestHomeSqft := 0 } = preLines sel
      simp only [preLines]
      rw [fleaLines_zero, fleaLines_of_gt hgt]
    have hsub : preSubtotal { sel with pestHomeSqft := 0 } = preSubtotal sel := by
      rw [preSubtotal_eq, preSubtotal_eq, hpl]
    refine (qs_ext ?_ ?_ ?_).symm
    · rw [computeQuote_lines, computeQuote_lines, hpl, hsub]
    · rw [computeQuote_subtotal, computeQuote_subtotal,
        computeQuote_total, computeQuote_total, hsub]
    · rw [computeQuote_total, computeQuote_total, hsub]

/-- C3 counterexample: at sqft 5000 the returned summary is empty and
identical to the one for an empty selection — no priced line, no
label-only line, and no custom-quote signal in anything the engine
returns to its caller. -/
theorem claim3_counterexample :
    computeQuote (selPest 5000) = computeQuote emptySelection
    ∧ (computeQuote (selPest 5000)).lines = [] := by
  have h : (computeQuote (selPest 5000)) = computeQuote emptySelection := by
    norm_num [computeQuote, minChargeAcc, preAcc, zoneAcc, pestAcc, fleaAcc,
      rugAcc, uphAcc, uphItemAcc, uphKeyList, sectionalAcc, tileAcc, carpetAcc,
      tierKeys, rugSizeList, push, selPest, emptySelection, TierQty.zero,
      TierQty.get, extendedFee, show Zone.local ≠ Zone.extended by decide]
  refine ⟨h, ?_⟩
  rw [h]
  norm_num [computeQuote, minChargeAcc, preAcc, zoneAcc, pestAcc, fleaAcc,
    rugAcc, uphAcc, uphItemAcc, uphKeyList, sectionalAcc, tileAcc, carpetAcc,
    tierKeys, rugSizeList, push, emptySelection, TierQty.zero, TierQty.get,
    extendedFee, show Zone.local ≠ Zone.extended by decide]

end JetStream

namespace JetStream

/-- Witness for amended C3: sqft 1500 yields the tier-1 line, sqft 2000
the tier-2 line, and at sqft 5000 the summary equals the zero-sqft one. -/
theorem claim3_flea_tiering_witness :
    (⟨"Move-Out Flea and Tick (AL only)", 1, 149, 149⟩ : LineItem)
        ∈ (computeQuote (selPest 1500)).lines
    ∧ (⟨"Move-Out Flea and Tick (AL only)", 1, 300, 300⟩ : LineItem)
        ∈ (computeQuote (selPest 2000)).lines
    ∧ computeQuote (selPest 5000) = computeQuote { selPest 5000 with pestHomeSqft := 0 } :=
  ⟨(claim3_flea_tiering (selPest 1500)).1
      (by norm_num [selPest, emptySelection]) (by norm_num [selPest, emptySelection]),
   (claim3_flea_tiering (selPest 2000)).2.1
      (by norm_num [selPest, emptySelection]) (by norm_num [selPest, emptySelection]),
   ((claim3_flea_tiering (selPest 5000)).2.2
      (by norm_num [selPest, emptySelection])).2⟩

/-- C2: Add-on cap law.  For every upholstery item (the sectional
included) with base price b, nonzero quantity q and the deodorizer flag
set, the emitted deodorizer line has unit price exactly
min(deodorizerCap, round(b * deodorizerPct)) and line total equal to that
unit price times q — rounding applied per unit before scaling by
quantity; likewise for the fabric protector with its own cap and
percentage. -/
theorem claim2_addon_cap (sel : Selection) :
    (∀ k, ¬ sel.uphQty k = 0 → sel.uphDeo k = true →
        (⟨uphLabel k ++ " - Deodorizer", (sel.uphQty k : ℚ),
           min deodorizerCap ((jsRound (uphPrice k * deodorizerPct) : ℤ) : ℚ),
           min deodorizerCap ((jsRound (uphPrice k * deodorizerPct) : ℤ) : ℚ)
             * (sel.uphQty k : ℚ)⟩ : LineItem) ∈ (computeQuote sel).lines)
    ∧ (∀ k, ¬ sel.uphQty k = 0 → sel.uphProt k = true →
        (⟨uphLabel k ++ " - Fabric Protector", (sel.uphQty k : ℚ),
           min fabricProtectorCap ((jsRound (uphPrice k * fabricProtectorPct) : ℤ) : ℚ),
           min fabricProtectorCap ((jsRound (uphPrice k * fabricProtectorPct) : ℤ) : ℚ)
             * (sel.uphQty k : ℚ)⟩ : LineItem) ∈ (computeQuote sel).lines)
    ∧ (¬ sel.sectionalQty = 0 → sel.sectionalDeo = true →
        (⟨"Sectional - Deodorizer", (sel.sectionalQty : ℚ),
           min deodorizerCap
             ((jsRound ((sectionalPrices sel.sectionalCushions).getD 0 * deodorizerPct) : ℤ) : ℚ),
           min deodorizerCap
             ((jsRound ((sectionalPrices sel.sectionalCushions).getD 0 * deodorizerPct) : ℤ) : ℚ)
             * (sel.sectionalQty : ℚ)⟩ : LineItem) ∈ (computeQuote sel).lines)
    ∧ (¬ sel.sectionalQty = 0 → sel.sectionalProt = true →
        (⟨"Sectional - Fabric Protector", (sel.sectionalQty : ℚ),
           min fabricProtectorCap
             ((jsRound ((sectionalPrices sel.sectionalCushions).getD 0 * fabricProtectorPct) : ℤ) : ℚ),
           min fabricProtectorCap
             ((jsRound ((sectionalPrices sel.sectionalCushions).getD 0 * fabricProtectorPct) : ℤ) : ℚ)
             * (sel.sectionalQty : ℚ)⟩ : LineItem) ∈ (computeQuote sel).lines) := by
  refine ⟨?_, ?_, ?_, ?_⟩
  · intro k hq hd
    refine mem_lines_of_uph ?_
    unfold uphLines
    rw [List.mem_flatten]
    refine ⟨uphItemLines k (sel.uphQty k) (sel.uphDeo k) (sel.uphProt k),
      List.mem_map.2 ⟨k, mem_uphKeyList k, rfl⟩, ?_⟩
    unfold uphItemLines
    rw [if_neg hq]
    refine List.mem_append_left _ (List.mem_append_right _ ?_)
    rw [hd]
    simp
  · intro k hq hp
    refine mem_lines_of_uph ?_
    unfold uphLines
    rw [List.mem_flatten]
    refine ⟨uphItemLines k (sel.uphQty k) (sel.uphDeo k) (sel.uphProt k),
      List.mem_map.2 ⟨k, mem_uphKeyList k, rfl⟩, ?_⟩
    unfold uphItemLines
    rw [if_neg hq]
    refine List.mem_append_right _ ?_
    rw [hp]
    simp
  · intro hq hd
    refine mem_lines_of_sectional ?_
    unfold sectionalLines
    rw [if_neg hq]
    refine List.mem_append_left _ (List.mem_append_right _ ?_)
    rw [hd]
    simp
  · intro hq hp
    refine mem_lines_of_sectional ?_
    unfold sectionalLines
    rw [if_neg hq]
    refine List.mem_append_right _ ?_
    rw [hp]
    simp

/-- Witness for C2 at two ottomans (base 40): deodorizer unit
min(20, round(40 x 0.15)) = 6, fabric unit min(50, round(40 x 0.2)) = 8,
each emitted and scaling with quantity 2. -/
theorem claim2_addon_cap_witness :
    ¬ selOttoman.uphQty UphKey.ottoman = 0
    ∧ selOttoman.uphDeo UphKey.ottoman = true
    ∧ min deodorizerCap ((jsRound (uphPrice UphKey.ottoman * deodorizerPct) : ℤ) : ℚ) = 6
    ∧ min fabricProtectorCap ((jsRound (uphPrice UphKey.ottoman * fabricProtectorPct) : ℤ) : ℚ) = 8
    ∧ (⟨uphLabel UphKey.ottoman ++ " - Deodorizer", (selOttoman.uphQty UphKey.ottoman : ℚ),
         min deodorizerCap ((jsRound (uphPrice UphKey.ottoman * deodorizerPct) : ℤ) : ℚ),
         min deodorizerCap ((jsRound (uphPrice UphKey.ottoman * deodorizerPct) : ℤ) : ℚ)
           * (selOttoman.uphQty UphKey.ottoman : ℚ)⟩ : LineItem)
        ∈ (computeQuote selOttoman).lines
    ∧ (⟨uphLabel UphKey.ottoman ++ " - Fabric Protector", (selOttoman.uphQty UphKey.ottoman : ℚ),
         min fabricProtectorCap ((jsRound (uphPrice UphKey.ottoman * fabricProtectorPct) : ℤ) : ℚ),
         min fabricProtectorCap ((jsRound (uphPrice UphKey.ottoman * fabricProtectorPct) : ℤ) : ℚ)
           * (selOttoman.uphQty UphKey.ottoman : ℚ)⟩ : LineItem)
        ∈ (computeQuote selOttoman).lines :=
  ⟨by decide, by decide,
   by norm_num [deodorizerCap, deodorizerPct, uphPrice, jsRound],
   by norm_num [fabricProtectorCap, fabricProtectorPct, uphPrice, jsRound],
   (claim2_addon_cap selOttoman).1 UphKey.ottoman (by decide) (by decide),
   (claim2_addon_cap selOttoman).2.1 UphKey.ottoman (by decide) (by decide)⟩

/-- C6: Sectional lookup-miss policy.  With nonzero sectional quantity
and a cushion count outside 4-12 the price lookup resolves to 0 rather
than failing: the base line and any enabled add-on lines are emitted with
unit price 0 and line total 0. -/
theorem claim6_sectional_lookup_miss (sel : Selection)
    (hq : ¬ sel.sectionalQty = 0)
    (hc : sel.sectionalCushions < 4 ∨ 12 < sel.sectionalCushions) :
    (sectionalPrices sel.sectionalCushions).getD 0 = 0
    ∧ (⟨"Sectional - " ++ toString sel.sectionalCushions ++ " cushions",
         (sel.sectionalQty : ℚ), 0, 0⟩ : LineItem) ∈ (computeQuote sel).lines
    ∧ (sel.sectionalDeo = true →
        (⟨"Sectional - Deodorizer", (sel.sectionalQty : ℚ), 0, 0⟩ : LineItem)
          ∈ (computeQuote sel).lines)
    ∧ (sel.sectionalProt = true →
        (⟨"Sectional - Fabric Protector", (sel.sectionalQty : ℚ), 0, 0⟩ : LineItem)
          ∈ (computeQuote sel).lines) := by
  have hb : (sectionalPrices sel.sectionalCushions).getD 0 = 0 := by
    rw [sectionalPrices_none hc]
    rfl
  have hdeo0 : min deodorizerCap
      ((jsRound ((sectionalPrices sel.sectionalCushions).getD 0 * deodorizerPct) : ℤ) : ℚ) = 0 := by
    rw [hb]
    norm_num [jsRound, deodorizerCap]
  have hprot0 : min fabricProtectorCap
      ((jsRound ((sectionalPrices sel.sectionalCushions).getD 0 * fabricProtectorPct) : ℤ) : ℚ) = 0 := by
    rw [hb]
    norm_num [jsRound, fabricProtectorCap]
  refine ⟨hb, ?_, ?_, ?_⟩
  · refine mem_lines_of_sectional ?_
    unfold sectionalLines
    rw [if_neg hq]
    refine List.mem_append_left _ (List.mem_append_left _ ?_)
    rw [List.mem_singleton, hb]
    norm_num
  · intro hd
    refine mem_lines_of_sectional ?_
    unfold sectionalLines
    rw [if_neg hq]
    refine List.mem_append_left _ (List.mem_append_right _ ?_)
    rw [hd]
    simp [hdeo0]
  · intro hp
    refine mem_lines_of_sectional ?_
    unfold sectionalLines
    rw [if_neg hq]
    refine List.mem_append_right _ ?_
    rw [hp]
    simp [hprot0]

/-- Witness for C6 at two sectionals with 13 cushions and both add-ons:
every sectional line is priced 0. -/
theorem claim6_sectional_lookup_miss_witness :
    (sectionalPrices selSect13.sectionalCushions).getD 0 = 0
    ∧ (⟨"Sectional - " ++ toString selSect13.sectionalCushions ++ " cushions",
         (selSect13.sectionalQty : ℚ), 0, 0⟩ : LineItem) ∈ (computeQuote selSect13).lines
    ∧ (⟨"Sectional - Deodorizer", (selSect13.sectionalQty : ℚ), 0, 0⟩ : LineItem)
        ∈ (computeQuote selSect13).lines
    ∧ (⟨"Sectional - Fabric Protector", (selSect13.sectionalQty : ℚ), 0, 0⟩ : LineItem)
        ∈ (computeQuote selSect13).lines := by
  have h := claim6_sectional_lookup_miss selSect13 (by decide) (by decide)
  exact ⟨h.1, h.2.1, h.2.2.1 rfl, h.2.2.2 rfl⟩

end JetStream

namespace JetStream

/-- Witness for C7 at the extended-zone selection, whose line list is
nonempty (zone fee plus adjustment). -/
theorem claim7_invariants_witness :
    (∀ l ∈ (computeQuote selExtended).lines, l.total = l.qty * l.each)
    ∧ (computeQuote selExtended).total = sumTotals (computeQuote selExtended).lines :=
  claim7_invariants selExtended

end JetStream
